import Mathlib

/-!
Verification of the desktop-switch controller of `vlabo/desktop_switcher`
(`src/main.rs`), a Windows virtual-desktop switcher with per-desktop focus
restoration.

The embedding is shallow: window handles and desktop indices are `Nat`
(the source stores handles as raw `usize` values and indices as `u32`; no
arithmetic is performed on them, so no overflow modelling is needed).  The
platform (Win32 plus the `winvd` crate) is an oracle record `Env`; every
failure point of the source (`Result`-returning `winvd` calls) is an
`Option` field.  The `get_current_desktop` query is issued at several
distinct moments (once in the save phase, once per poll iteration), so the
save-phase answer and the per-iteration poll answers are separate oracle
fields.  Side-effecting platform commands are recorded in an effect trace
`List Eff`; the focus registry (`State.last_focus_by_desktop`, a
`HashMap<u32, usize>`) is modelled extensionally as `Nat → Option Nat`,
with `insert` as pointwise update and `get` as application.  The `Mutex`
around the registry can fail only by poisoning, which cannot occur in this
single-threaded program, so `lock()` is modelled as always succeeding.
-/

namespace DesktopSwitcher

/-- The focus registry: `last_focus_by_desktop : HashMap<u32, usize>`,
modelled extensionally as a partial map from desktop index to the raw
handle value of the last saved foreground window. -/
abbrev Registry := Nat → Option Nat

/-- `HashMap::insert idx fg`: upsert one entry. -/
def regSave (r : Registry) (i : Nat) (w : Nat) : Registry :=
  fun k => if k = i then some w else r k

/-- `HashMap::get(&i).copied()`: read one entry. -/
def regLookup (r : Registry) (i : Nat) : Option Nat :=
  r i

/-- Observable platform commands issued by the controller, in order. -/
inductive Eff where
  /-- `winvd::switch_desktop(i)` was called (whether or not it failed). -/
  | switchDesktop (i : Nat)
  /-- the `k`-th `winvd::get_current_desktop()` query of the completion
  poll loop (0-based iteration counter). -/
  | pollQuery (k : Nat)
  /-- `std::thread::sleep(Duration::from_millis(ms))`. -/
  | sleepMs (ms : Nat)
  /-- `ShowWindow(w, SW_RESTORE)` on a minimized window. -/
  | showWindowRestore (w : Nat)
  /-- `SetForegroundWindow(w)`. -/
  | setForeground (w : Nat)
deriving DecidableEq, Repr

/-- The platform oracle: one field per call site of the source.  A `none`
answer models the corresponding `Result` being `Err` (for the two-step
`get_current_desktop().get_index()` and
`get_desktop_by_window().get_index()` chains, `none` covers a failure of
either step, exactly as `and_then` collapses them in the source). -/
structure Env where
  /-- `GetForegroundWindow()`; the value `0` encodes a null `HWND`. -/
  foreground : Nat
  /-- `get_current_desktop().get_index()` as queried in the save phase. -/
  currentDesktopAtSave : Option Nat
  /-- `get_desktop_count()`. -/
  desktopCount : Option Nat
  /-- whether `switch_desktop(target)` returns `Ok`. -/
  switchOk : Bool
  /-- `get_current_desktop().get_index()` as queried on the `k`-th poll
  iteration of the completion wait. -/
  pollDesktop : Nat → Option Nat
  /-- `IsWindow(w).as_bool()`. -/
  isWindow : Nat → Bool
  /-- `winvd::is_pinned_window(w)`. -/
  isPinned : Nat → Option Bool
  /-- `winvd::get_desktop_by_window(w).and_then(|d| d.get_index())`. -/
  owningDesktop : Nat → Option Nat
  /-- `IsIconic(w).as_bool()`. -/
  isIconic : Nat → Bool

/-- `save_focus_for_current_desktop(app_hwnd)` (src/main.rs:60-76): read
the foreground window; skip if null or the controller's own window; skip
silently if the current-desktop query or its index retrieval fails;
otherwise upsert the registry at the current desktop index. -/
def save_focus_for_current_desktop (env : Env) (app_hwnd : Nat) (reg : Registry) :
    Registry :=
  let fg := env.foreground
  if fg = 0 ∨ fg = app_hwnd then reg
  else
    match env.currentDesktopAtSave with
    | none => reg
    | some idx => regSave reg idx fg

/-- `restore_focus_for_desktop(desktop_index)` (src/main.rs:78-110): look
up the saved handle; stop if absent, dead, or neither pinned nor resident
on `desktop_index` (both validation queries default to `false` on
failure, via `unwrap_or(false)`); otherwise un-minimize if iconic and set
foreground.  Returns the platform commands issued. -/
def restore_focus_for_desktop (env : Env) (reg : Registry) (desktop_index : Nat) :
    List Eff :=
  match regLookup reg desktop_index with
  | none => []
  | some hwnd =>
    if env.isWindow hwnd = false then []
    else
      let pinned := (env.isPinned hwnd).getD false
      let on_desktop :=
        ((env.owningDesktop hwnd).map (fun i => decide (i = desktop_index))).getD false
      if pinned = false ∧ on_desktop = false then []
      else
        (if env.isIconic hwnd then [Eff.showWindowRestore hwnd] else []) ++
          [Eff.setForeground hwnd]

/-- The break condition of one poll iteration (src/main.rs:127-131):
`get_current_desktop().and_then(get_index).map(|i| i == target).unwrap_or(true)`
— a query failure counts as confirmation. -/
def pollBreak (env : Env) (target : Nat) (k : Nat) : Bool :=
  ((env.pollDesktop k).map (fun i => decide (i = target))).getD true

/-- The completion-wait loop `for _ in 0..12 { ...; if on_target { break; }
sleep(15ms); }` (src/main.rs:126-138), with explicit fuel and iteration
counter.  Each iteration records its query; a non-breaking iteration also
records its 15 ms sleep. -/
def pollLoop (env : Env) (target : Nat) : Nat → Nat → List Eff
  | 0, _ => []
  | fuel + 1, k =>
    if pollBreak env target k then [Eff.pollQuery k]
    else Eff.pollQuery k :: Eff.sleepMs 15 :: pollLoop env target fuel (k + 1)

/-- `try_switch_desktop(app_hwnd, desktop_index)` (src/main.rs:112-139):
save phase, then desktop-count query (abort on failure), bounds check
(abort if `desktop_index >= count`), switch request (abort on failure),
bounded completion poll, restore phase.  Returns the final registry and
the trace of platform commands. -/
def try_switch_desktop (env : Env) (app_hwnd : Nat) (desktop_index : Nat)
    (reg : Registry) : Registry × List Eff :=
  let reg1 := save_focus_for_current_desktop env app_hwnd reg
  match env.desktopCount with
  | none => (reg1, [])
  | some count =>
    if desktop_index ≥ count then (reg1, [])
    else if env.switchOk = false then (reg1, [Eff.switchDesktop desktop_index])
    else
      (reg1, Eff.switchDesktop desktop_index ::
        (pollLoop env desktop_index 12 0 ++
          restore_focus_for_desktop env reg1 desktop_index))

/-! ### Event router (`wndproc`, src/main.rs:222-272) -/

/-- The intent the window procedure derives from one inbound message. -/
inductive Intent where
  /-- `try_switch_desktop(hwnd, i)` is invoked. -/
  | switchTo (i : Nat)
  /-- `show_tray_menu` is invoked. -/
  | showMenu
  /-- `DestroyWindow` is invoked (Exit menu entry). -/
  | quitApp
  /-- `WM_CREATE`: tray icon added, hotkeys registered. -/
  | setup
  /-- `WM_DESTROY`: hotkeys unregistered, icon removed, quit posted. -/
  | teardown
  /-- anything else: `DefWindowProcW`, or an in-range message whose
  payload matches no case. -/
  | ignore
deriving DecidableEq, Repr

/-- `n as i32` on a `usize` value: truncate to 32 bits and reinterpret as
two's complement. -/
def toInt32 (n : Nat) : Int :=
  let m : Nat := n % 2 ^ 32
  if m < 2 ^ 31 then (m : Int) else (m : Int) - 2 ^ 32

/-- Inbound messages, with the payload each `wndproc` arm inspects
(`wparam`/`lparam` carried as their nonnegative machine values). -/
inductive Msg where
  | create
  | hotkey (wparam : Nat)
  | trayicon (lparam : Nat)
  | command (wparam : Nat)
  | destroy
  | other
deriving DecidableEq, Repr

/-- `WM_RBUTTONUP = 0x0205`. -/
def WM_RBUTTONUP : Nat := 517

/-- `MENU_EXIT_ID = 1000`. -/
def MENU_EXIT_ID : Nat := 1000

/-- The classification performed by `wndproc` (src/main.rs:222-272):
`WM_HOTKEY` converts `wparam` with `as i32` and switches to `id - 1` when
`id ∈ HOTKEY_FIRST..=HOTKEY_LAST` (1..=9); `WM_TRAYICON` shows the menu
on `WM_RBUTTONUP`; `WM_COMMAND` masks `wparam & 0xffff`, exits on
`MENU_EXIT_ID`, switches to `cmd - 1` when `cmd ∈ 1..=9`. -/
def wndproc_intent : Msg → Intent
  | .create => .setup
  | .hotkey wparam =>
    let id : Int := toInt32 wparam
    if 1 ≤ id ∧ id ≤ 9 then .switchTo (id - 1).toNat else .ignore
  | .trayicon lparam =>
    if lparam % 2 ^ 32 = WM_RBUTTONUP then .showMenu else .ignore
  | .command wparam =>
    let cmd := wparam % 2 ^ 16
    if cmd = MENU_EXIT_ID then .quitApp
    else if 1 ≤ cmd ∧ cmd ≤ 9 then .switchTo (cmd - 1)
    else .ignore
  | .destroy => .teardown
  | .other => .ignore

/-! ### Trace accounting helpers -/

/-- Recognizes a completion-poll query in the trace. -/
def isPollQuery : Eff → Bool
  | .pollQuery _ => true
  | _ => false

/-- Recognizes a sleep in the trace. -/
def isSleep : Eff → Bool
  | .sleepMs _ => true
  | _ => false

/-- Number of completion-poll queries in a trace. -/
def numPolls (l : List Eff) : Nat :=
  l.countP isPollQuery

/-- Number of sleeps in a trace. -/
def numSleeps (l : List Eff) : Nat :=
  l.countP isSleep

/-- Total milliseconds slept in a trace. -/
def totalSleepMs (l : List Eff) : Nat :=
  (l.map fun e => match e with | .sleepMs ms => ms | _ => 0).sum

/-! ### Concrete platform oracles and registries for evaluation -/

/-- The everywhere-empty registry. -/
def emptyReg : Registry := fun _ => none

/-- Foreground window 42, current desktop 0, two desktops.  Used to
evaluate an out-of-bounds switch request. -/
def envC1 : Env where
  foreground := 42
  currentDesktopAtSave := some 0
  desktopCount := some 2
  switchOk := true
  pollDesktop := fun _ => some 0
  isWindow := fun _ => false
  isPinned := fun _ => none
  owningDesktop := fun _ => none
  isIconic := fun _ => false

/-- No foreground window, three desktops; every poll reports desktop 0;
window 42 is live, unpinned and resident on desktop 0. -/
def envC2 : Env where
  foreground := 0
  currentDesktopAtSave := none
  desktopCount := some 3
  switchOk := true
  pollDesktop := fun _ => some 0
  isWindow := fun w => decide (w = 42)
  isPinned := fun _ => some false
  owningDesktop := fun w => if w = 42 then some 0 else none
  isIconic := fun _ => false

/-- A registry holding window 42 for desktop 0 and nothing else. -/
def regC2 : Registry := regSave (fun _ => none) 0 42

/-- Three desktops; polls confirm desktop 1 at once; window 7 is live,
unpinned and resident on desktop 0. -/
def envC3 : Env where
  foreground := 0
  currentDesktopAtSave := none
  desktopCount := some 3
  switchOk := true
  pollDesktop := fun _ => some 1
  isWindow := fun w => decide (w = 7)
  isPinned := fun _ => some false
  owningDesktop := fun w => if w = 7 then some 0 else none
  isIconic := fun _ => false

/-- A registry holding window 7 for desktop 1 and nothing else. -/
def regC3 : Registry := regSave (fun _ => none) 1 7

/-- Like `envC3` but window 7 is pinned to all desktops. -/
def envC4 : Env where
  foreground := 0
  currentDesktopAtSave := none
  desktopCount := some 3
  switchOk := true
  pollDesktop := fun _ => some 1
  isWindow := fun w => decide (w = 7)
  isPinned := fun w => some (decide (w = 7))
  owningDesktop := fun w => if w = 7 then some 0 else none
  isIconic := fun _ => false

/-- Three desktops; the very first poll query fails. -/
def envC9 : Env where
  foreground := 0
  currentDesktopAtSave := none
  desktopCount := some 3
  switchOk := true
  pollDesktop := fun k => if k = 0 then none else some 1
  isWindow := fun _ => false
  isPinned := fun _ => none
  owningDesktop := fun _ => none
  isIconic := fun _ => false

/-- Three desktops; window 7 is live and unpinned but the owning-desktop
query fails for every window. -/
def envC10 : Env where
  foreground := 0
  currentDesktopAtSave := none
  desktopCount := some 3
  switchOk := true
  pollDesktop := fun _ => some 1
  isWindow := fun w => decide (w = 7)
  isPinned := fun _ => some false
  owningDesktop := fun _ => none
  isIconic := fun _ => false

/-! ### Helper lemmas about the completion-wait loop and the restore trace -/

theorem numPolls_nil : numPolls [] = 0 := rfl

theorem numSleeps_nil : numSleeps [] = 0 := rfl

theorem numPolls_pollLoop_le (env : Env) (target : Nat) :
    ∀ fuel s, numPolls (pollLoop env target fuel s) ≤ fuel := by
  intro fuel
  induction fuel with
  | zero => intro s; simp [pollLoop, numPolls]
  | succ n ih =>
    intro s
    by_cases h : pollBreak env target s
    · simp [pollLoop, h, numPolls, isPollQuery, List.countP_cons]
    · have := ih (s + 1)
      simp [pollLoop, h, numPolls, List.countP_cons, isPollQuery] at *
      omega

theorem numSleeps_pollLoop_le (env : Env) (target : Nat) :
    ∀ fuel s, numSleeps (pollLoop env target fuel s) ≤ fuel := by
  intro fuel
  induction fuel with
  | zero => intro s; simp [pollLoop, numSleeps]
  | succ n ih =>
    intro s
    by_cases h : pollBreak env target s
    · simp [pollLoop, h, numSleeps, isSleep, List.countP_cons]
    · have := ih (s + 1)
      simp [pollLoop, h, numSleeps, List.countP_cons, isSleep] at *
      omega

/-- If the break condition holds at iteration `s + j`, the loop performs at
most `j + 1` queries and `j` sleeps (it breaks at the first such
iteration, which is at or before `s + j`). -/
theorem pollLoop_stops (env : Env) (target : Nat) :
    ∀ fuel s j, pollBreak env target (s + j) = true →
      numPolls (pollLoop env target fuel s) ≤ j + 1 ∧
      numSleeps (pollLoop env target fuel s) ≤ j := by
  intro fuel
  induction fuel with
  | zero => intro s j _; simp [pollLoop, numPolls, numSleeps]
  | succ n ih =>
    intro s j h
    by_cases hb : pollBreak env target s
    · constructor <;>
        simp [pollLoop, hb, numPolls, numSleeps, isPollQuery, isSleep, List.countP_cons]
    · have hj : j ≠ 0 := by
        intro h0
        rw [h0, Nat.add_zero] at h
        exact hb h
      obtain ⟨j', rfl⟩ := Nat.exists_eq_succ_of_ne_zero hj
      have hrec := ih (s + 1) j' (by rw [show s + 1 + j' = s + (j' + 1) by omega]; exact h)
      simp [pollLoop, hb, numPolls, numSleeps, List.countP_cons, isPollQuery, isSleep] at *
      omega

/-- If the break condition fails on every iteration the fuel allows, the
loop performs exactly `fuel` queries and `fuel` sleeps. -/
theorem pollLoop_exhaust (env : Env) (target : Nat) :
    ∀ fuel s, (∀ j, j < fuel → pollBreak env target (s + j) = false) →
      numPolls (pollLoop env target fuel s) = fuel ∧
      numSleeps (pollLoop env target fuel s) = fuel := by
  intro fuel
  induction fuel with
  | zero => intro s _; simp [pollLoop, numPolls, numSleeps]
  | succ n ih =>
    intro s hall
    have hb : pollBreak env target s = false := by
      have := hall 0 (by omega)
      rwa [Nat.add_zero] at this
    have hrec := ih (s + 1) (by
      intro j hj
      have := hall (j + 1) (by omega)
      rwa [show s + (j + 1) = s + 1 + j by omega] at this)
    simp [pollLoop, hb, numPolls, numSleeps, List.countP_cons, isPollQuery, isSleep] at *
    omega

/-- Every sleep the loop emits is the fixed 15 ms interval. -/
theorem pollLoop_sleep_fixed (env : Env) (target : Nat) :
    ∀ fuel s ms, Eff.sleepMs ms ∈ pollLoop env target fuel s → ms = 15 := by
  intro fuel
  induction fuel with
  | zero => intro s ms h; simp [pollLoop] at h
  | succ n ih =>
    intro s ms h
    by_cases hb : pollBreak env target s
    · simp [pollLoop, hb] at h
    · simp only [pollLoop, hb, Bool.false_eq_true, if_false, List.mem_cons] at h
      rcases h with h | h | h
      · simp at h
      · simp at h; exact h
      · exact ih (s + 1) ms h

/-- Every trace element the loop emits is a poll query or a 15 ms sleep. -/
theorem pollLoop_mem (env : Env) (target : Nat) :
    ∀ fuel s e, e ∈ pollLoop env target fuel s →
      (∃ k, e = Eff.pollQuery k) ∨ e = Eff.sleepMs 15 := by
  intro fuel
  induction fuel with
  | zero => intro s e h; simp [pollLoop] at h
  | succ n ih =>
    intro s e h
    by_cases hb : pollBreak env target s
    · simp only [pollLoop, hb, if_true, List.mem_singleton] at h
      exact Or.inl ⟨s, h⟩
    · simp only [pollLoop, hb, Bool.false_eq_true, if_false, List.mem_cons] at h
      rcases h with h | h | h
      · exact Or.inl ⟨s, h⟩
      · exact Or.inr h
      · exact ih (s + 1) e h

/-- The restore phase emits one of three traces: nothing, a lone
set-foreground, or an un-minimize followed by a set-foreground. -/
theorem restore_cases (env : Env) (reg : Registry) (d : Nat) :
    restore_focus_for_desktop env reg d = [] ∨
    (∃ w, restore_focus_for_desktop env reg d = [Eff.setForeground w]) ∨
    (∃ w, restore_focus_for_desktop env reg d =
      [Eff.showWindowRestore w, Eff.setForeground w]) := by
  unfold restore_focus_for_desktop
  cases regLookup reg d with
  | none => exact Or.inl rfl
  | some w =>
    by_cases hw : env.isWindow w = false
    · simp [hw]
    · by_cases hg : (env.isPinned w).getD false = false ∧
        ((env.owningDesktop w).map (fun i => decide (i = d))).getD false = false
      · simp [hw, hg]
      · by_cases hi : env.isIconic w
        · right; right; exact ⟨w, by simp [hw, hg, hi]⟩
        · right; left; exact ⟨w, by simp [hw, hg, hi]⟩

/-- The restore phase emits no poll queries and no sleeps. -/
theorem restore_no_poll_sleep (env : Env) (reg : Registry) (d : Nat) :
    numPolls (restore_focus_for_desktop env reg d) = 0 ∧
    numSleeps (restore_focus_for_desktop env reg d) = 0 ∧
    totalSleepMs (restore_focus_for_desktop env reg d) = 0 := by
  rcases restore_cases env reg d with h | ⟨w, h⟩ | ⟨w, h⟩ <;>
    simp [h, numPolls, numSleeps, totalSleepMs, isPollQuery, isSleep, List.countP_cons]

/-- The total sleep time of the loop is 15 ms per recorded sleep. -/
theorem pollLoop_totalSleep (env : Env) (target : Nat) :
    ∀ fuel s, totalSleepMs (pollLoop env target fuel s) =
      15 * numSleeps (pollLoop env target fuel s) := by
  intro fuel
  induction fuel with
  | zero => intro s; simp [pollLoop, totalSleepMs, numSleeps]
  | succ n ih =>
    intro s
    by_cases hb : pollBreak env target s
    · simp [pollLoop, hb, totalSleepMs, numSleeps, isSleep, List.countP_cons]
    · have := ih (s + 1)
      simp [pollLoop, hb, totalSleepMs, numSleeps, List.countP_cons, isSleep] at *
      omega

/-- If both validation answers default to `false`, the restore phase
issues no command (whether or not the window is live). -/
theorem restore_guard_stop (env : Env) (reg : Registry) (t w : Nat)
    (h1 : regLookup reg t = some w)
    (h2 : (env.isPinned w).getD false = false)
    (h3 : ((env.owningDesktop w).map (fun i => decide (i = t))).getD false = false) :
    restore_focus_for_desktop env reg t = [] := by
  unfold restore_focus_for_desktop
  rw [h1]
  by_cases hw : env.isWindow w = false
  · simp [hw]
  · simp [hw, h2, h3]

/-- A live saved window whose pin query yields `true` is always given
foreground focus by the restore phase. -/
theorem restore_pinned_focus (env : Env) (reg : Registry) (t w : Nat)
    (h1 : regLookup reg t = some w)
    (h2 : env.isWindow w = true)
    (h3 : (env.isPinned w).getD false = true) :
    Eff.setForeground w ∈ restore_focus_for_desktop env reg t := by
  unfold restore_focus_for_desktop
  rw [h1]
  simp [h2, h3]

/-- The save phase never touches a registry entry whose index differs
from the save-phase current-desktop answer. -/
theorem save_focus_preserves_other (env : Env) (app reg : _) (k : Nat)
    (h : env.currentDesktopAtSave ≠ some k) :
    regLookup (save_focus_for_current_desktop env app reg) k = regLookup reg k := by
  simp only [save_focus_for_current_desktop]
  by_cases hfg : env.foreground = 0 ∨ env.foreground = app
  · rw [if_pos hfg]
  · rw [if_neg hfg]
    cases hcur : env.currentDesktopAtSave with
    | none => rfl
    | some idx =>
      have hne : k ≠ idx := fun he => h (by rw [hcur, he])
      simp [regLookup, regSave, hne]

/-- When the count query succeeds, the target is in bounds and the switch
request succeeds, the trace is the switch request, the poll segment, and
the restore segment for the target desktop, in that order. -/
theorem try_success_trace (env : Env) (app target reg : _) (c : Nat)
    (hc : env.desktopCount = some c) (ht : target < c) (hs : env.switchOk = true) :
    (try_switch_desktop env app target reg).2 =
      Eff.switchDesktop target ::
        (pollLoop env target 12 0 ++
          restore_focus_for_desktop env (save_focus_for_current_desktop env app reg)
            target) := by
  simp [try_switch_desktop, hc, hs, show ¬ target ≥ c by omega]

/-- In every branch, the registry `try_switch_desktop` returns is exactly
the save phase's result. -/
theorem try_registry_is_save (env : Env) (app target reg : _) :
    (try_switch_desktop env app target reg).1 =
      save_focus_for_current_desktop env app reg := by
  unfold try_switch_desktop
  cases env.desktopCount with
  | none => rfl
  | some count =>
    by_cases hb : target ≥ count
    · simp [hb]
    · by_cases hs : env.switchOk = false <;> simp [hb, hs]

/-- On a successful switch, the poll and sleep accounting of the whole
trace is that of the poll segment alone. -/
theorem try_trace_counts (env : Env) (app target reg : _) (c : Nat)
    (hc : env.desktopCount = some c) (ht : target < c) (hs : env.switchOk = true) :
    numPolls (try_switch_desktop env app target reg).2 =
      numPolls (pollLoop env target 12 0) ∧
    numSleeps (try_switch_desktop env app target reg).2 =
      numSleeps (pollLoop env target 12 0) ∧
    totalSleepMs (try_switch_desktop env app target reg).2 =
      totalSleepMs (pollLoop env target 12 0) := by
  rw [try_success_trace env app target reg c hc ht hs]
  obtain ⟨h1, h2, h3⟩ :=
    restore_no_poll_sleep env (save_focus_for_current_desktop env app reg) target
  refine ⟨?_, ?_, ?_⟩
  · simp [numPolls, List.countP_cons, List.countP_append, isPollQuery] at h1 ⊢
    exact h1
  · simp [numSleeps, List.countP_cons, List.countP_append, isSleep] at h2 ⊢
    exact h2
  · simp [totalSleepMs, List.map_cons, List.map_append, List.sum_cons,
      List.sum_append] at h3 ⊢
    omega

/-! ### Claim theorems -/

/-- Claim C8: for all desktop indices `i ≠ j` and any handles, after
`save(i, w)` followed by `save(j, w2)`, `lookup(i)` still returns `w` — a
save to one index never changes the entry stored at a different index. -/
theorem save_no_cross_contamination (r : Registry) (i j w w2 : Nat) (hij : i ≠ j) :
    regLookup (regSave (regSave r i w) j w2) i = some w := by
  simp [regLookup, regSave, hij]

/-- Witness for C8 at `i = 0`, `j = 1`, `w = 5`, `w2 = 6`. -/
theorem save_no_cross_contamination_witness :
    (0 : Nat) ≠ 1 ∧ regLookup (regSave (regSave emptyReg 0 5) 1 6) 0 = some 5 :=
  ⟨by decide, save_no_cross_contamination emptyReg 0 1 5 6 (by decide)⟩

/-- Claim C7: for every slot `k` in 1..9 the router maps a context-menu
selection of slot `k` and a hotkey press for slot `k` to the same intent,
namely a switch to desktop `k - 1`; a hotkey payload whose `i32` value is
outside 1..9 never yields a switch, and a command payload whose low word
is outside 1..9 never yields a switch. -/
theorem menu_and_hotkey_identical :
    (∀ k : Nat, 1 ≤ k → k ≤ 9 →
      wndproc_intent (Msg.command k) = wndproc_intent (Msg.hotkey k) ∧
      wndproc_intent (Msg.hotkey k) = Intent.switchTo (k - 1)) ∧
    (∀ v : Nat, ¬ (1 ≤ toInt32 v ∧ toInt32 v ≤ 9) →
      ∀ i, wndproc_intent (Msg.hotkey v) ≠ Intent.switchTo i) ∧
    (∀ v : Nat, ¬ (1 ≤ v % 2 ^ 16 ∧ v % 2 ^ 16 ≤ 9) →
      ∀ i, wndproc_intent (Msg.command v) ≠ Intent.switchTo i) := by
  refine ⟨?_, ?_, ?_⟩
  · intro k h1 h9
    have hm32 : k % 2 ^ 32 = k := Nat.mod_eq_of_lt (by omega)
    have hm16 : k % 2 ^ 16 = k := Nat.mod_eq_of_lt (by omega)
    have hid : toInt32 k = (k : Int) := by
      simp only [toInt32, hm32]
      rw [if_pos (by omega)]
    have hcond : 1 ≤ toInt32 k ∧ toInt32 k ≤ 9 := by
      rw [hid]
      exact ⟨by exact_mod_cast h1, by exact_mod_cast h9⟩
    have hhot : wndproc_intent (Msg.hotkey k) = Intent.switchTo (k - 1) := by
      simp only [wndproc_intent]
      rw [if_pos hcond, hid]
      congr 1
      omega
    refine ⟨?_, hhot⟩
    rw [hhot]
    simp only [wndproc_intent, hm16, MENU_EXIT_ID]
    rw [if_neg (by omega), if_pos ⟨h1, h9⟩]
  · intro v hneg i
    simp only [wndproc_intent]
    rw [if_neg hneg]
    simp
  · intro v hneg i
    simp only [wndproc_intent]
    by_cases hq : v % 2 ^ 16 = MENU_EXIT_ID
    · rw [if_pos hq]
      simp
    · rw [if_neg hq, if_neg hneg]
      simp

/-- Witness for C7: slot 3 from either route switches to desktop 2;
payloads 12 (hotkey) and 12 (command) trigger no switch. -/
theorem menu_and_hotkey_identical_witness :
    (wndproc_intent (Msg.command 3) = wndproc_intent (Msg.hotkey 3) ∧
      wndproc_intent (Msg.hotkey 3) = Intent.switchTo 2) ∧
    wndproc_intent (Msg.hotkey 12) ≠ Intent.switchTo 5 ∧
    wndproc_intent (Msg.command 12) ≠ Intent.switchTo 5 :=
  ⟨menu_and_hotkey_identical.1 3 (by decide) (by decide),
   menu_and_hotkey_identical.2.1 12 (by decide) 5,
   menu_and_hotkey_identical.2.2 12 (by decide) 5⟩

/-- Claim C10: residency validation fails closed — if the owning-desktop
query (or its index retrieval) fails for a live, non-pinned saved window,
the restore phase treats it as not resident and issues no command at all
(in particular no set-foreground). -/
theorem restore_owning_query_failure_fails_closed (env : Env) (reg : Registry)
    (t w : Nat)
    (hreg : regLookup reg t = some w)
    (_hlive : env.isWindow w = true)
    (hpin : env.isPinned w = some false)
    (hown : env.owningDesktop w = none) :
    restore_focus_for_desktop env reg t = [] :=
  restore_guard_stop env reg t w hreg (by rw [hpin]; rfl) (by rw [hown]; rfl)

/-- Witness for C10: window 7 saved for desktop 1, live and unpinned,
owning-desktop query failing. -/
theorem restore_owning_query_failure_fails_closed_witness :
    restore_focus_for_desktop envC10 regC3 1 = [] :=
  restore_owning_query_failure_fails_closed envC10 regC3 1 7 rfl rfl rfl rfl

/-- Claim C3: in the restore phase of a switch to `target`, a saved
window for `target` that is live but neither pinned-to-all-desktops nor
resident on `target` (the owning-desktop query reporting some other
desktop `d`) never receives set-foreground or minimized-restore. -/
theorem no_focus_when_not_resident (env : Env) (app target reg : _) (w d : Nat)
    (hreg : regLookup (save_focus_for_current_desktop env app reg) target = some w)
    (_hlive : env.isWindow w = true)
    (hpin : env.isPinned w = some false)
    (hown : env.owningDesktop w = some d)
    (hne : d ≠ target) :
    Eff.setForeground w ∉ (try_switch_desktop env app target reg).2 ∧
    Eff.showWindowRestore w ∉ (try_switch_desktop env app target reg).2 := by
  have hrest : restore_focus_for_desktop env
      (save_focus_for_current_desktop env app reg) target = [] := by
    refine restore_guard_stop env _ target w hreg (by rw [hpin]; rfl) ?_
    rw [hown]
    simp [hne]
  unfold try_switch_desktop
  cases env.desktopCount with
  | none => simp
  | some count =>
    by_cases hb : target ≥ count
    · simp [hb]
    · by_cases hs : env.switchOk = false
      · simp [hb, hs]
      · simp only [hb, hs, if_neg, if_false, Bool.false_eq_true]
        rw [hrest]
        constructor <;>
        · intro hmem
          rw [List.append_nil] at hmem
          rcases List.mem_cons.mp hmem with h | h
          · exact Eff.noConfusion h
          · rcases pollLoop_mem env target 12 0 _ h with ⟨k, hk⟩ | hk <;>
              exact Eff.noConfusion hk

/-- Witness for C3: window 7, saved for target desktop 1, live, unpinned,
resident on desktop 0: no focus command appears in the trace. -/
theorem no_focus_when_not_resident_witness :
    Eff.setForeground 7 ∉ (try_switch_desktop envC3 9 1 regC3).2 ∧
    Eff.showWindowRestore 7 ∉ (try_switch_desktop envC3 9 1 regC3).2 :=
  no_focus_when_not_resident envC3 9 1 regC3 7 0 rfl rfl rfl rfl (by decide)

/-- Claim C4: in the restore phase of a switch to `target`, a saved live
window for `target` that is pinned-to-all-desktops receives foreground
focus even when the owning-desktop query reports a different desktop
(pinned overrides residency); the switch itself must go through (count
query succeeds, target in bounds, switch request succeeds) for the
restore phase to run. -/
theorem pinned_overrides_residency (env : Env) (app target reg : _) (w d c : Nat)
    (hreg : regLookup (save_focus_for_current_desktop env app reg) target = some w)
    (hlive : env.isWindow w = true)
    (hpin : env.isPinned w = some true)
    (_hown : env.owningDesktop w = some d)
    (_hne : d ≠ target)
    (hc : env.desktopCount = some c)
    (ht : target < c)
    (hs : env.switchOk = true) :
    Eff.setForeground w ∈ (try_switch_desktop env app target reg).2 := by
  rw [try_success_trace env app target reg c hc ht hs]
  have hmem : Eff.setForeground w ∈ restore_focus_for_desktop env
      (save_focus_for_current_desktop env app reg) target :=
    restore_pinned_focus env _ target w hreg hlive (by rw [hpin]; rfl)
  exact List.mem_cons_of_mem _ (List.mem_append_right _ hmem)

/-- Witness for C4: window 7 pinned, saved for target desktop 1, resident
on desktop 0: set-foreground appears in the trace. -/
theorem pinned_overrides_residency_witness :
    Eff.setForeground 7 ∈ (try_switch_desktop envC4 9 1 regC3).2 :=
  pinned_overrides_residency envC4 9 1 regC3 7 0 3 rfl rfl rfl rfl (by decide) rfl
    (by decide) rfl

/-- Claim C6: the save phase skips when there is no foreground window or
the foreground window is the controller's own hidden window; a failed
current-desktop query skips the save silently while the operation still
proceeds to the bounds check and (when in bounds and accepted) the switch
request; otherwise the registry is upserted at the current index with the
foreground window. -/
theorem save_phase_policy (env : Env) (app target : Nat) (reg : Registry) :
    ((env.foreground = 0 ∨ env.foreground = app) →
      save_focus_for_current_desktop env app reg = reg) ∧
    (env.currentDesktopAtSave = none →
      save_focus_for_current_desktop env app reg = reg ∧
      ∀ c, env.desktopCount = some c → target < c → env.switchOk = true →
        Eff.switchDesktop target ∈ (try_switch_desktop env app target reg).2) ∧
    (env.foreground ≠ 0 → env.foreground ≠ app →
      ∀ idx, env.currentDesktopAtSave = some idx →
        save_focus_for_current_desktop env app reg =
          regSave reg idx env.foreground) := by
  refine ⟨?_, ?_, ?_⟩
  · intro h
    simp only [save_focus_for_current_desktop]
    rw [if_pos h]
  · intro h
    constructor
    · simp only [save_focus_for_current_desktop, h]
      by_cases hfg : env.foreground = 0 ∨ env.foreground = app <;> simp [hfg]
    · intro c hc ht hs
      rw [try_success_trace env app target reg c hc ht hs]
      exact List.mem_cons_self _ _
  · intro h0 happ idx hidx
    simp only [save_focus_for_current_desktop, hidx]
    rw [if_neg (by tauto)]

/-- Witness for C6: all three branches evaluated — `envC3` has no
foreground window (save skipped), its current-desktop query also fails
yet the switch request for in-bounds desktop 1 is still issued, and
`envC1` (foreground 42, current desktop 0) upserts entry 0. -/
theorem save_phase_policy_witness :
    save_focus_for_current_desktop envC3 9 emptyReg = emptyReg ∧
    Eff.switchDesktop 1 ∈ (try_switch_desktop envC3 9 1 regC3).2 ∧
    save_focus_for_current_desktop envC1 1 emptyReg = regSave emptyReg 0 42 :=
  ⟨(save_phase_policy envC3 9 1 emptyReg).1 (Or.inl rfl),
   ((save_phase_policy envC3 9 1 regC3).2.1 rfl).2 3 rfl (by decide) rfl,
   (save_phase_policy envC1 1 0 emptyReg).2.2 (by decide) (by decide) 0 rfl⟩

/-- Claim C9: a failed current-desktop query during the completion wait
is treated as confirmation — the loop breaks at (or before) that
iteration, so at most `k + 1` queries and `k` sleeps occur when the
`k`-th query fails, and the restore phase follows the poll segment
directly in the trace. -/
theorem poll_failure_breaks_loop (env : Env) (target k : Nat)
    (h : env.pollDesktop k = none) :
    numPolls (pollLoop env target 12 0) ≤ k + 1 ∧
    numSleeps (pollLoop env target 12 0) ≤ k ∧
    ∀ app reg c, env.desktopCount = some c → target < c → env.switchOk = true →
      (try_switch_desktop env app target reg).2 =
        Eff.switchDesktop target ::
          (pollLoop env target 12 0 ++
            restore_focus_for_desktop env
              (save_focus_for_current_desktop env app reg) target) := by
  have hb : pollBreak env target (0 + k) = true := by
    rw [Nat.zero_add]
    simp [pollBreak, h]
  refine ⟨(pollLoop_stops env target 12 0 k hb).1,
    (pollLoop_stops env target 12 0 k hb).2, ?_⟩
  intro app reg c hc ht hs
  exact try_success_trace env app target reg c hc ht hs

/-- Witness for C9: in `envC9` the very first poll query fails, so one
query and no sleep occur. -/
theorem poll_failure_breaks_loop_witness :
    numPolls (pollLoop envC9 1 12 0) ≤ 1 ∧
    numSleeps (pollLoop envC9 1 12 0) ≤ 0 ∧
    (try_switch_desktop envC9 9 1 emptyReg).2 =
      Eff.switchDesktop 1 ::
        (pollLoop envC9 1 12 0 ++
          restore_focus_for_desktop envC9
            (save_focus_for_current_desktop envC9 9 emptyReg) 1) :=
  ⟨(poll_failure_breaks_loop envC9 1 0 rfl).1,
   (poll_failure_breaks_loop envC9 1 0 rfl).2.1,
   (poll_failure_breaks_loop envC9 1 0 rfl).2.2 9 emptyReg 3 rfl (by decide) rfl⟩

/-- Claim C5: on a successful switch request the completion wait is
bounded — at most 12 poll queries, at most 12 sleeps, every sleep exactly
15 ms for at most 180 ms of total sleeping; if poll `k` reports the
target the loop performs at most `k + 1` queries; and whatever the poll
outcome the trace proceeds to the restore segment. -/
theorem bounded_completion_wait (env : Env) (app target reg : _) (c : Nat)
    (hc : env.desktopCount = some c) (ht : target < c) (hs : env.switchOk = true) :
    numPolls (try_switch_desktop env app target reg).2 ≤ 12 ∧
    numSleeps (try_switch_desktop env app target reg).2 ≤ 12 ∧
    (∀ ms, Eff.sleepMs ms ∈ (try_switch_desktop env app target reg).2 → ms = 15) ∧
    totalSleepMs (try_switch_desktop env app target reg).2 ≤ 180 ∧
    (∀ k, env.pollDesktop k = some target →
      numPolls (try_switch_desktop env app target reg).2 ≤ k + 1) ∧
    (try_switch_desktop env app target reg).2 =
      Eff.switchDesktop target ::
        (pollLoop env target 12 0 ++
          restore_focus_for_desktop env
            (save_focus_for_current_desktop env app reg) target) := by
  obtain ⟨hp, hsl, hts⟩ := try_trace_counts env app target reg c hc ht hs
  have heq := try_success_trace env app target reg c hc ht hs
  refine ⟨?_, ?_, ?_, ?_, ?_, heq⟩
  · rw [hp]
    exact numPolls_pollLoop_le env target 12 0
  · rw [hsl]
    exact numSleeps_pollLoop_le env target 12 0
  · intro ms hmem
    rw [heq] at hmem
    rcases List.mem_cons.mp hmem with h | h
    · exact Eff.noConfusion h
    · rcases List.mem_append.mp h with h' | h'
      · exact pollLoop_sleep_fixed env target 12 0 ms h'
      · rcases restore_cases env (save_focus_for_current_desktop env app reg) target
          with hr | ⟨w, hr⟩ | ⟨w, hr⟩ <;> rw [hr] at h' <;> simp at h'
  · rw [hts, pollLoop_totalSleep env target 12 0]
    have := numSleeps_pollLoop_le env target 12 0
    omega
  · intro k hk
    rw [hp]
    have hb : pollBreak env target (0 + k) = true := by
      rw [Nat.zero_add]
      simp [pollBreak, hk]
    exact (pollLoop_stops env target 12 0 k hb).1

/-- Witness for C5 in `envC3`: at most 12 polls, at most 180 ms asleep,
and — the first poll already confirming — at most one poll. -/
theorem bounded_completion_wait_witness :
    numPolls (try_switch_desktop envC3 9 1 regC3).2 ≤ 12 ∧
    totalSleepMs (try_switch_desktop envC3 9 1 regC3).2 ≤ 180 ∧
    numPolls (try_switch_desktop envC3 9 1 regC3).2 ≤ 1 :=
  ⟨(bounded_completion_wait envC3 9 1 regC3 3 rfl (by decide) rfl).1,
   (bounded_completion_wait envC3 9 1 regC3 3 rfl (by decide) rfl).2.2.2.1,
   (bounded_completion_wait envC3 9 1 regC3 3 rfl (by decide) rfl).2.2.2.2.1 0 rfl⟩

/-- Claim C1 counterexample: two desktops, foreground window 42 on
desktop 0, empty registry, request for desktop 5.  No platform command is
issued (in particular no switch request), but the registry is NOT left
unmodified: the save phase runs before the bounds check and stores window
42 under index 0. -/
theorem out_of_bounds_registry_modified :
    (try_switch_desktop envC1 1 5 emptyReg).2 = [] ∧
    regLookup (try_switch_desktop envC1 1 5 emptyReg).1 0 = some 42 ∧
    regLookup emptyReg 0 = none := by
  decide

/-- Claim C1 amended: for `target ≥ count` the operation issues no
platform command (so no switch request and no restore commands), and the
registry equals the save phase's result — the only possible change is the
save-phase upsert for the currently active desktop; every other index
keeps its entry. -/
theorem out_of_bounds_no_switch (env : Env) (app target : Nat) (reg : Registry)
    (c : Nat) (hc : env.desktopCount = some c) (hb : c ≤ target) :
    (try_switch_desktop env app target reg).2 = [] ∧
    (try_switch_desktop env app target reg).1 =
      save_focus_for_current_desktop env app reg ∧
    ∀ k, env.currentDesktopAtSave ≠ some k →
      regLookup (try_switch_desktop env app target reg).1 k = regLookup reg k := by
  have h2 := try_registry_is_save env app target reg
  refine ⟨?_, h2, ?_⟩
  · simp [try_switch_desktop, hc, show target ≥ c from hb]
  · intro k hk
    rw [h2]
    exact save_focus_preserves_other env app reg k hk

/-- Witness for C1 amended: the out-of-bounds request in `envC1` issues
no command and leaves index 7 (not the current desktop) untouched. -/
theorem out_of_bounds_no_switch_witness :
    (try_switch_desktop envC1 1 5 emptyReg).2 = [] ∧
    regLookup (try_switch_desktop envC1 1 5 emptyReg).1 7 = regLookup emptyReg 7 :=
  ⟨(out_of_bounds_no_switch envC1 1 5 emptyReg 2 rfl (by decide)).1,
   (out_of_bounds_no_switch envC1 1 5 emptyReg 2 rfl (by decide)).2.2 7 (by decide)⟩

/-- Claim C2 counterexample: target desktop 1, every poll reporting
desktop 0, so the completion wait exhausts all 12 attempts and the
currently reported desktop is 0.  The registry holds the live, unpinned
window 42 resident on desktop 0.  Restoration keyed on the currently
reported desktop (0) would issue set-foreground on 42 — but the actual
trace contains no set-foreground at all: restoration is keyed on the
target index 1, whose registry slot is empty. -/
theorem poll_exhaustion_restores_target_not_reported :
    numPolls (try_switch_desktop envC2 1 1 regC2).2 = 12 ∧
    envC2.pollDesktop 11 = some 0 ∧
    restore_focus_for_desktop envC2 regC2 0 = [Eff.setForeground 42] ∧
    Eff.setForeground 42 ∉ (try_switch_desktop envC2 1 1 regC2).2 := by
  decide

/-- Claim C2 amended: if the completion poll never confirms within its 12
attempts (every query answers with some non-target desktop), `switch_to`
still returns normally, performs exactly 12 poll attempts, and then
attempts focus restoration for the target desktop index — not for the
desktop currently reported as active. -/
theorem poll_exhaustion_still_restores (env : Env) (app target reg : _) (c : Nat)
    (hc : env.desktopCount = some c) (ht : target < c) (hs : env.switchOk = true)
    (hp : ∀ k, k < 12 → pollBreak env target k = false) :
    (try_switch_desktop env app target reg).2 =
      Eff.switchDesktop target ::
        (pollLoop env target 12 0 ++
          restore_focus_for_desktop env
            (save_focus_for_current_desktop env app reg) target) ∧
    numPolls (pollLoop env target 12 0) = 12 := by
  refine ⟨try_success_trace env app target reg c hc ht hs, ?_⟩
  exact (pollLoop_exhaust env target 12 0 (fun j hj => by
    rw [Nat.zero_add]
    exact hp j hj)).1

/-- Witness for C2 amended in `envC2` (polls never confirm target 1). -/
theorem poll_exhaustion_still_restores_witness :
    (try_switch_desktop envC2 1 1 regC2).2 =
      Eff.switchDesktop 1 ::
        (pollLoop envC2 1 12 0 ++
          restore_focus_for_desktop envC2
            (save_focus_for_current_desktop envC2 1 regC2) 1) ∧
    numPolls (pollLoop envC2 1 12 0) = 12 :=
  poll_exhaustion_still_restores envC2 1 1 regC2 3 rfl (by decide) rfl
    (fun k _ => rfl)

end DesktopSwitcher
